import Mathlib

/-!
Verification of the sfdx-falcon plugin helpers.

This file gives a shallow embedding, in Lean 4, of the two helper modules of
the repository:

* `src/helpers/git-helper.ts` — the remote-repository state classifier
  (`isGitRemoteEmpty`, `isGitRemoteEmptyAsync`), the local repository
  provisioner (`gitClone`, `gitInit`, `gitAddAndCommit`, `gitRemoteAddOrigin`)
  and the repository-name extractor (`getRepoNameFromUri` with
  `repoNameRegEx`).
* `src/helpers/adk-helper.ts` — the `AppxDemoProject` orchestrator: its
  execution-intent state machine (`setIntent`), the `validateDemo` /
  `deployDemo` entry points, and the configuration validators
  (`validateAppxDemoConfig`, `validateDemoBuildConfig`).

Shell interaction (shelljs) is modelled by the data it feeds back to the
TypeScript code: an exit code plus stdout/stderr for the async probe, a
throw/no-throw bit per shell call for the synchronous functions (the module
sets `shell.config.fatal = true`, so a fatal shell error surfaces as an
exception).  File-system effects are recorded as a trace of the shell
operations the code issues.  JavaScript values that may fail a `typeof`
check are modelled by `JsVal`; a JSON option value that may not be a boolean
is modelled by `JsBoolOption`.
-/

namespace SfdxFalcon

/-! ## Remote repository state classification (git-helper.ts) -/

/-- The object built by the callback of `shell.exec` inside
`isGitRemoteEmptyAsync` (git-helper.ts lines 363-405): the raw exit code,
the two output streams, a human-readable message and the resolve/reject
decision. -/
structure GitRemoteCheckObject where
  code : Int
  stdout : String
  stderr : String
  message : String
  resolve : Bool
deriving DecidableEq, Repr

/-- The `switch (code)` block of `isGitRemoteEmptyAsync`
(git-helper.ts lines 374-390), applied to the data the shell callback
receives. -/
def isGitRemoteEmptyAsyncCallback (code : Int) (stdout stderr : String) :
    GitRemoteCheckObject :=
  let base : GitRemoteCheckObject :=
    { code := code, stdout := stdout, stderr := stderr, message := "", resolve := false }
  if code = 0 then
    { base with message := "Remote repository found", resolve := true }
  else if code = 2 then
    { base with message := "Remote repository contains no commits", resolve := false }
  else if code = 128 then
    { base with message := "Remote repository not found", resolve := false }
  else
    { base with message := "Unexpected Error", resolve := false }

/-- The settled promise of `isGitRemoteEmptyAsync` (git-helper.ts lines
362-406) as a function of the probe's exit data: `Except.ok` models a
resolved promise, `Except.error` a rejected one.  Both paths carry the
full return object. -/
def isGitRemoteEmptyAsync (code : Int) (stdout stderr : String) :
    Except GitRemoteCheckObject GitRemoteCheckObject :=
  let returnObject := isGitRemoteEmptyAsyncCallback code stdout stderr
  if returnObject.resolve then Except.ok returnObject else Except.error returnObject

/-- `shell.config.fatal = true` (git-helper.ts line 43): a synchronous
`shell.exec` throws exactly when the command exits nonzero. -/
def shellExecThrows (code : Int) : Bool :=
  code ≠ 0

/-- The blocking `isGitRemoteEmpty` (git-helper.ts lines 318-334) as a
function of the probe's exit code: it returns `false` when the
`git ls-remote --exit-code -h` call throws, `true` otherwise. -/
def isGitRemoteEmpty (code : Int) : Bool :=
  if shellExecThrows code then false else true

/-! ## Local repository provisioner (git-helper.ts) -/

/-- A JavaScript argument as seen by a `typeof x !== 'string'` check:
either a string or some non-string value. -/
inductive JsVal where
  | str (s : String)
  | notAString
deriving DecidableEq, Repr

/-- One shell operation issued by the provisioner, with the directory or
command it targets. -/
inductive ShellOp where
  | cd (dir : String)
  | mkdirP (dir : String)
  | exec (cmd : String)
deriving DecidableEq, Repr

/-- Errors thrown by the git helper functions.  The first three model the
JavaScript error classes and codes used by the source: `TypeError` with
`ERROR_UNEXPECTED_TYPE`, `TypeError` with `ERROR_INVALID_TYPE`, and a plain
`Error` with `ERROR_INVALID_VALUE`.  `nullDereference` models the JavaScript
`TypeError` raised when `repoNameRegEx.exec(...)` returns `null` and the
code reads `[0]` from it. -/
inductive GitError where
  | typeErrorUnexpectedType
  | typeErrorInvalidType
  | errorInvalidValue
  | invalidTargetDir
  | noTargetDir
  | destinationNotEmpty (resolvedPath : String)
  | nullDereference
  | unreadableRepoName
deriving DecidableEq, Repr

/-- The file-system circumstances a `gitClone` call can meet: whether the
first `shell.cd` into the resolved target fails, whether `shell.mkdir -p`
fails, whether the retried `shell.cd` fails, and whether the
`git clone` command itself fails. -/
structure CloneEnv where
  cdFailsBefore : Bool
  mkdirFails : Bool
  cdFailsAfter : Bool
  cloneFails : Bool
deriving DecidableEq, Repr

/-- JavaScript `String.prototype.trim`: leading and trailing whitespace
removed.  Defined on the character list so that it evaluates inside the
kernel. -/
def jsTrim (s : String) : String :=
  String.mk (((s.toList.dropWhile Char.isWhitespace).reverse.dropWhile
    Char.isWhitespace).reverse)

/-- `gitClone` (git-helper.ts lines 57-116).  `resolvePath` abstracts
`path.resolve(path.normalize(·))`.  The result pairs the trace of shell
operations actually issued with the outcome. -/
def gitClone (gitRemoteUri targetDirectory : JsVal)
    (resolvePath : String → String) (env : CloneEnv) :
    List ShellOp × Except GitError Unit :=
  match gitRemoteUri, targetDirectory with
  | JsVal.str uri, JsVal.str target =>
    if jsTrim target = "" then
      ([], Except.error GitError.errorInvalidValue)
    else
      let resolved := resolvePath target
      if env.cdFailsBefore then
        if env.mkdirFails then
          ([ShellOp.cd resolved, ShellOp.mkdirP resolved],
           Except.error GitError.invalidTargetDir)
        else if env.cdFailsAfter then
          ([ShellOp.cd resolved, ShellOp.mkdirP resolved, ShellOp.cd resolved],
           Except.error GitError.noTargetDir)
        else
          let ops := [ShellOp.cd resolved, ShellOp.mkdirP resolved, ShellOp.cd resolved,
                      ShellOp.exec ("git clone " ++ uri)]
          if env.cloneFails then (ops, Except.error (GitError.destinationNotEmpty resolved))
          else (ops, Except.ok ())
      else
        let ops := [ShellOp.cd resolved, ShellOp.exec ("git clone " ++ uri)]
        if env.cloneFails then (ops, Except.error (GitError.destinationNotEmpty resolved))
        else (ops, Except.ok ())
  | _, _ => ([], Except.error GitError.typeErrorUnexpectedType)

/-- `gitInit` (git-helper.ts lines 129-146). -/
def gitInit (targetDirectory : JsVal) : List ShellOp × Except GitError Unit :=
  match targetDirectory with
  | JsVal.notAString => ([], Except.error GitError.typeErrorInvalidType)
  | JsVal.str t =>
    if t = "" then ([], Except.error GitError.typeErrorInvalidType)
    else ([ShellOp.cd t, ShellOp.exec "git init"], Except.ok ())

/-- `gitAddAndCommit` (git-helper.ts lines 160-187). -/
def gitAddAndCommit (targetDirectory commitMessage : JsVal) :
    List ShellOp × Except GitError Unit :=
  match targetDirectory with
  | JsVal.notAString => ([], Except.error GitError.typeErrorInvalidType)
  | JsVal.str t =>
    if t = "" then ([], Except.error GitError.typeErrorInvalidType)
    else
      match commitMessage with
      | JsVal.notAString => ([], Except.error GitError.typeErrorInvalidType)
      | JsVal.str m =>
        if m = "" then ([], Except.error GitError.typeErrorInvalidType)
        else
          ([ShellOp.cd t, ShellOp.exec "git add -A",
            ShellOp.exec ("git commit -m \"" ++ m ++ "\"")], Except.ok ())

/-- `gitRemoteAddOrigin` (git-helper.ts lines 201-224). -/
def gitRemoteAddOrigin (targetDirectory gitRemoteUri : JsVal) :
    List ShellOp × Except GitError Unit :=
  match targetDirectory with
  | JsVal.notAString => ([], Except.error GitError.typeErrorInvalidType)
  | JsVal.str t =>
    if t = "" then ([], Except.error GitError.typeErrorInvalidType)
    else
      match gitRemoteUri with
      | JsVal.notAString => ([], Except.error GitError.typeErrorInvalidType)
      | JsVal.str u =>
        if u = "" then ([], Except.error GitError.typeErrorInvalidType)
        else
          ([ShellOp.cd t, ShellOp.exec ("git remote add origin " ++ u)], Except.ok ())

/-! ## Repository-name extraction (git-helper.ts) -/

/-- JavaScript `\w`: ASCII letters, digits and underscore. -/
def isWordCharJs (c : Char) : Bool :=
  ('a' ≤ c && c ≤ 'z') ||
  ('A' ≤ c && c ≤ 'Z') ||
  ('0' ≤ c && c ≤ '9') ||
  c = '_'

/-- A character accepted by the `(\w|-)+` part of `repoNameRegEx`
(git-helper.ts line 27). -/
def isRepoNameChar (c : Char) : Bool :=
  isWordCharJs c || c = '-'

/-- The `\/*$` tail of `repoNameRegEx`: only forward slashes up to the end. -/
def isAllSlashes : List Char → Bool
  | [] => true
  | c :: rest => c = '/' && isAllSlashes rest

/-- Whether `repoNameRegEx = /\/(\w|-)+\.git\/*$/` matches the whole
remainder of the string starting at this position: a slash, one or more
name characters, the literal `.git`, then only slashes to the end.  Because
`$`-anchored and because name characters exclude `.` and `/`, the regex
engine's backtracking search from a position succeeds exactly when this
deterministic parse does. -/
def repoNameMatchAt : List Char → Bool
  | c :: rest =>
    if c = '/' then
      let nameRun := rest.takeWhile isRepoNameChar
      let after := rest.dropWhile isRepoNameChar
      !nameRun.isEmpty &&
        (match after with
         | d :: g :: i :: t :: tail =>
           d = '.' && g = 'g' && i = 'i' &&
           t = 't' && isAllSlashes tail
         | _ => false)
    else false
  | [] => false

/-- `repoNameRegEx.exec(s)`: the leftmost position at which the
`$`-anchored pattern matches, returning `match[0]` (the suffix from that
position), or `none` when the pattern matches nowhere (JavaScript: `null`). -/
def execRepoNameRegEx : List Char → Option (List Char)
  | [] => none
  | c :: rest =>
    if repoNameMatchAt (c :: rest) then some (c :: rest)
    else execRepoNameRegEx rest

/-- JavaScript `String.prototype.lastIndexOf` restricted to a single
character: the index of its last occurrence, `none` standing for `-1`. -/
def lastIndexOfChar (c : Char) : List Char → Option Nat
  | [] => none
  | x :: rest =>
    match lastIndexOfChar c rest with
    | some i => some (i + 1)
    | none => if x = c then some 0 else none

/-- JavaScript `s.substring(0, e)` where `e` came from `lastIndexOf`:
a negative end index is clamped to `0`, yielding the empty string. -/
def jsSubstringFromZero (l : List Char) : Option Nat → List Char
  | none => []
  | some e => l.take e

/-- `getRepoNameFromUri` (git-helper.ts lines 279-304).  The source reads
`repoNameRegEx.exec(gitRemoteUri)[0]` without a null check: when the regex
does not match, `exec` returns `null` and the index access raises a
JavaScript `TypeError`, modelled as `GitError.nullDereference`.  On a match
it strips from the last `.` on, drops the leading slash, and throws
`ERROR_UNREADABLE_REPO_NAME` when nothing remains. -/
def getRepoNameFromUri (gitRemoteUri : String) : Except GitError String :=
  match execRepoNameRegEx gitRemoteUri.toList with
  | none => Except.error GitError.nullDereference
  | some matched =>
    let strippedExt := jsSubstringFromZero matched (lastIndexOfChar '.' matched)
    let repoName := strippedExt.drop 1
    if repoName.isEmpty then Except.error GitError.unreadableRepoName
    else Except.ok (String.mk repoName)

/-! ## AppxDemoProject orchestrator (adk-helper.ts) -/

/-- The `INTENT` enumeration imported from `../enums` and used by
`AppxDemoProject`. -/
inductive INTENT where
  | NOT_SPECIFIED
  | VALIDATE_DEMO
  | DEPLOY_DEMO
  | HEALTH_CHECK
  | REPAIR_PROJECT
deriving DecidableEq, Repr

/-- The mutable per-instance state of `AppxDemoProject`
(adk-helper.ts lines 54-56, initialized at lines 109-110): the execution
intent and the `executingSequence` in-progress flag. -/
structure AdkState where
  executionIntent : INTENT
  executingSequence : Bool
deriving DecidableEq, Repr

/-- The errors the orchestrator throws, keyed by their stable message
prefixes. -/
inductive AdkError where
  | sequenceRunning
  | intentNotImplemented
  | unknownIntent
  | invalidIntent
  | invalidConfigKeys (keys : List String)
  | invalidConfigGroups
deriving DecidableEq, Repr

/-- `AppxDemoProject.setIntent` (adk-helper.ts lines 389-417).  The source
mutates `this`; the model returns the state after the call together with
the thrown error, if any.  Note the source writes both `executingSequence`
and `executionIntent` before validating the intent value in the `switch`,
so a rejected intent still leaves both written. -/
def setIntent (intent : INTENT) (st : AdkState) : AdkState × Option AdkError :=
  if st.executingSequence = true then
    (st, some AdkError.sequenceRunning)
  else
    let st1 : AdkState := { executionIntent := intent, executingSequence := true }
    match intent with
    | INTENT.DEPLOY_DEMO => (st1, none)
    | INTENT.HEALTH_CHECK => (st1, some AdkError.intentNotImplemented)
    | INTENT.REPAIR_PROJECT => (st1, some AdkError.intentNotImplemented)
    | INTENT.VALIDATE_DEMO => (st1, none)
    | INTENT.NOT_SPECIFIED => (st1, some AdkError.unknownIntent)

/-- The fields of the local developer configuration that `deployDemo`
reads (`this.context.config.local`). -/
structure LocalConfig where
  devHubAlias : String
  demoValidationOrgAlias : String
  demoDeploymentOrgAlias : String
deriving DecidableEq, Repr

/-- A JSON option value as seen by a `typeof x !== 'boolean'` check:
a boolean, or anything else (including an absent key). -/
inductive JsBoolOption where
  | boolean (b : Bool)
  | nonBoolean
deriving DecidableEq, Repr

/-- The parts of a sequence step's `options` bag that the rebuild group
sets. -/
structure SequenceStepOptions where
  scratchOrgAlias : String
  scratchDefJson : String
deriving DecidableEq, Repr

/-- A `FalconCommandSequenceStep`. -/
structure FalconCommandSequenceStep where
  stepName : String
  description : String
  action : String
  options : SequenceStepOptions
deriving DecidableEq, Repr

/-- A `FalconCommandSequenceGroup`. -/
structure FalconCommandSequenceGroup where
  groupId : String
  groupName : String
  description : String
  sequenceSteps : List FalconCommandSequenceStep
deriving DecidableEq, Repr

/-- The parts of the sequence's `options` bag that `deployDemo` reads and
writes: `rebuildValidationOrg` (possibly absent or non-boolean) and
`scratchDefJson`. -/
structure SequenceOptions where
  rebuildValidationOrg : JsBoolOption
  scratchDefJson : String
deriving DecidableEq, Repr

/-- A `FalconCommandSequence` as loaded from the demo-config file. -/
structure FalconCommandSequence where
  options : SequenceOptions
  sequenceGroups : List FalconCommandSequenceGroup
deriving DecidableEq, Repr

/-- `validateDemoBuildConfig` (adk-helper.ts lines 466-484): in the typed
model `sequenceGroups` is always a list, so only the at-least-one-member
check can fail; it throws `ERROR_INVALID_CONFIG`. -/
def validateDemoBuildConfig (demoBuildSequence : FalconCommandSequence) :
    Except AdkError Bool :=
  if demoBuildSequence.sequenceGroups.length < 1 then
    Except.error AdkError.invalidConfigGroups
  else
    Except.ok true

/-- The coercion at adk-helper.ts lines 302-305: when
`options.rebuildValidationOrg` is not of boolean type it is set to `true`,
otherwise it keeps its boolean value. -/
def coerceRebuild : JsBoolOption → Bool
  | JsBoolOption.boolean b => b
  | JsBoolOption.nonBoolean => true

/-- The `rebuildScratchOrgSequenceGroup` literal built at
adk-helper.ts lines 313-337. -/
def rebuildScratchOrgSequenceGroup (targetOrgAlias scratchDefJson : String) :
    FalconCommandSequenceGroup :=
  { groupId := "rebuild-org",
    groupName := "Refresh Scratch Org",
    description := "Deletes the current validation scratch org and creates a new one",
    sequenceSteps := [
      { stepName := "Delete Old Demo Validation Org",
        description := "Deletes the current Demo Validation scratch org",
        action := "delete-scratch-org",
        options := { scratchOrgAlias := targetOrgAlias, scratchDefJson := scratchDefJson } },
      { stepName := "Create New Demo Validation Org",
        description := "Creates a new Demo Validation scratch org",
        action := "create-scratch-org",
        options := { scratchOrgAlias := targetOrgAlias, scratchDefJson := scratchDefJson } } ] }

/-- The `switch (this.executionIntent)` of `deployDemo`
(adk-helper.ts lines 277-290): the target org alias and scratch-org flag
for the two implemented intents, `none` for every other intent (the
`ERROR_INVALID_INTENT` default). -/
def selectTarget (intent : INTENT) (localConfig : LocalConfig) :
    Option (String × Bool) :=
  match intent with
  | INTENT.VALIDATE_DEMO => some (localConfig.demoValidationOrgAlias, true)
  | INTENT.DEPLOY_DEMO => some (localConfig.demoDeploymentOrgAlias, false)
  | _ => none

/-- What `deployDemo` hands to the external `SfdxCommandSequence` executor:
the selected target and the (possibly mutated) sequence. -/
structure DeployOutcome where
  targetOrgAlias : String
  targetIsScratchOrg : Bool
  finalSequence : FalconCommandSequence
deriving DecidableEq, Repr

/-- `AppxDemoProject.deployDemo` (adk-helper.ts lines 267-354) up to the
hand-off to the external executor.  `loadedSequence` stands for the object
`readConfigFile` returns.  The result pairs the state of the orchestrator
after the call with either the thrown error or the data handed to the
executor. -/
def deployDemo (st : AdkState) (localConfig : LocalConfig)
    (loadedSequence : FalconCommandSequence) :
    AdkState × Except AdkError DeployOutcome :=
  match (if st.executionIntent = INTENT.NOT_SPECIFIED
         then setIntent INTENT.DEPLOY_DEMO st
         else (st, none)) with
  | (st1, some e) => (st1, Except.error e)
  | (st1, none) =>
    match selectTarget st1.executionIntent localConfig with
    | none => (st1, Except.error AdkError.invalidIntent)
    | some sel =>
      match validateDemoBuildConfig loadedSequence with
      | Except.error e => (st1, Except.error e)
      | Except.ok _ =>
        let rebuild := coerceRebuild loadedSequence.options.rebuildValidationOrg
        let seqCoerced : FalconCommandSequence :=
          { loadedSequence with
            options := { loadedSequence.options with
                         rebuildValidationOrg := JsBoolOption.boolean rebuild } }
        let seqFinal : FalconCommandSequence :=
          if st1.executionIntent = INTENT.VALIDATE_DEMO ∧ rebuild = true then
            { seqCoerced with
              sequenceGroups :=
                rebuildScratchOrgSequenceGroup sel.1 seqCoerced.options.scratchDefJson ::
                  seqCoerced.sequenceGroups }
          else seqCoerced
        (st1, Except.ok { targetOrgAlias := sel.1, targetIsScratchOrg := sel.2,
                          finalSequence := seqFinal })

/-- `AppxDemoProject.validateDemo` (adk-helper.ts lines 247-255): set the
intent to `VALIDATE_DEMO`, then leverage `deployDemo` for everything else.
A throw from `setIntent` propagates without reaching `deployDemo`. -/
def validateDemo (st : AdkState) (localConfig : LocalConfig)
    (loadedSequence : FalconCommandSequence) :
    AdkState × Except AdkError DeployOutcome :=
  match setIntent INTENT.VALIDATE_DEMO st with
  | (st1, some e) => (st1, Except.error e)
  | (st1, none) => deployDemo st1 localConfig loadedSequence

/-! ## Project-level configuration validation (adk-helper.ts) -/

/-- A field of the `appxDemo` project configuration: absent (`none`) or a
string.  `jsFalsy` is the `! value` test the validator applies. -/
structure AppxDemoProjectConfig where
  demoAlias : Option String
  demoConfig : Option String
  demoTitle : Option String
  demoType : Option String
  demoVersion : Option String
  gitHubUrl : Option String
  gitRemoteUri : Option String
  partnerAlias : Option String
  partnerName : Option String
  schemaVersion : Option String
deriving DecidableEq, Repr

/-- JavaScript falsiness of an optional string field: `undefined` and the
empty string are falsy. -/
def jsFalsy : Option String → Bool
  | none => true
  | some s => s = ""

/-- The result type of `validateAppxDemoConfig`: `TRUE`, or the array of
invalid keys. -/
inductive ConfigValidationResult where
  | valid
  | invalid (keys : List String)
deriving DecidableEq, Repr

/-- The `invalidConfigKeys` array that `validateAppxDemoConfig`
(adk-helper.ts lines 432-452) accumulates: one push per falsy field, in
source order. -/
def missingKeys (appxDemoConfig : AppxDemoProjectConfig) : List String :=
  let invalidConfigKeys : List String := []
  let invalidConfigKeys :=
    if jsFalsy appxDemoConfig.demoAlias then invalidConfigKeys ++ ["demoAlias"] else invalidConfigKeys
  let invalidConfigKeys :=
    if jsFalsy appxDemoConfig.demoConfig then invalidConfigKeys ++ ["demoConfig"] else invalidConfigKeys
  let invalidConfigKeys :=
    if jsFalsy appxDemoConfig.demoTitle then invalidConfigKeys ++ ["demoTitle"] else invalidConfigKeys
  let invalidConfigKeys :=
    if jsFalsy appxDemoConfig.demoType then invalidConfigKeys ++ ["demoType"] else invalidConfigKeys
  let invalidConfigKeys :=
    if jsFalsy appxDemoConfig.demoVersion then invalidConfigKeys ++ ["demoVersion"] else invalidConfigKeys
  let invalidConfigKeys :=
    if jsFalsy appxDemoConfig.gitHubUrl then invalidConfigKeys ++ ["gitHubUrl"] else invalidConfigKeys
  let invalidConfigKeys :=
    if jsFalsy appxDemoConfig.gitRemoteUri then invalidConfigKeys ++ ["gitRemoteUri"] else invalidConfigKeys
  let invalidConfigKeys :=
    if jsFalsy appxDemoConfig.partnerAlias then invalidConfigKeys ++ ["partnerAlias"] else invalidConfigKeys
  let invalidConfigKeys :=
    if jsFalsy appxDemoConfig.partnerName then invalidConfigKeys ++ ["partnerName"] else invalidConfigKeys
  let invalidConfigKeys :=
    if jsFalsy appxDemoConfig.schemaVersion then invalidConfigKeys ++ ["schemaVersion"] else invalidConfigKeys
  invalidConfigKeys

/-- `validateAppxDemoConfig` (adk-helper.ts lines 432-452): returns the
accumulated invalid keys when there are any, `TRUE` otherwise. -/
def validateAppxDemoConfig (appxDemoConfig : AppxDemoProjectConfig) :
    ConfigValidationResult :=
  let invalidConfigKeys := missingKeys appxDemoConfig
  if invalidConfigKeys.length > 0 then
    ConfigValidationResult.invalid invalidConfigKeys
  else
    ConfigValidationResult.valid

/-- The check in `AppxDemoProject.resolve` (adk-helper.ts lines 187-191):
a non-`true` validation response becomes an `ERROR_INVALID_CONFIG` throw
carrying the listed keys. -/
def resolveConfigCheck (appxDemoConfig : AppxDemoProjectConfig) :
    Except AdkError Unit :=
  match validateAppxDemoConfig appxDemoConfig with
  | ConfigValidationResult.valid => Except.ok ()
  | ConfigValidationResult.invalid keys => Except.error (AdkError.invalidConfigKeys keys)

/-! ## Theorems -/

/-- Claim C2: for every exit code returned by the asynchronous remote
probe, `isGitRemoteEmptyAsync` produces a result object carrying that exit
code, stdout and stderr, and maps the code exactly as: 0 resolves with
message "Remote repository found"; 2 rejects with "Remote repository
contains no commits"; 128 rejects with "Remote repository not found";
every other code rejects with "Unexpected Error"; the promise resolves
only for exit code 0. -/
theorem isGitRemoteEmptyAsync_exitCode_mapping (code : Int) (stdout stderr : String) :
    ((isGitRemoteEmptyAsyncCallback code stdout stderr).code = code ∧
     (isGitRemoteEmptyAsyncCallback code stdout stderr).stdout = stdout ∧
     (isGitRemoteEmptyAsyncCallback code stdout stderr).stderr = stderr) ∧
    (code = 0 → isGitRemoteEmptyAsync code stdout stderr =
       Except.ok { code := code, stdout := stdout, stderr := stderr,
                   message := "Remote repository found", resolve := true }) ∧
    (code = 2 → isGitRemoteEmptyAsync code stdout stderr =
       Except.error { code := code, stdout := stdout, stderr := stderr,
                      message := "Remote repository contains no commits", resolve := false }) ∧
    (code = 128 → isGitRemoteEmptyAsync code stdout stderr =
       Except.error { code := code, stdout := stdout, stderr := stderr,
                      message := "Remote repository not found", resolve := false }) ∧
    (code ≠ 0 → code ≠ 2 → code ≠ 128 → isGitRemoteEmptyAsync code stdout stderr =
       Except.error { code := code, stdout := stdout, stderr := stderr,
                      message := "Unexpected Error", resolve := false }) ∧
    (∀ r, isGitRemoteEmptyAsync code stdout stderr = Except.ok r → code = 0) := by
  unfold isGitRemoteEmptyAsync isGitRemoteEmptyAsyncCallback
  by_cases h0 : code = 0 <;> by_cases h2 : code = 2 <;> by_cases h128 : code = 128 <;>
    simp_all

/-- Closed instance of the C2 theorem: exit code 7 rejects with
"Unexpected Error". -/
theorem isGitRemoteEmptyAsync_exitCode_mapping_witness :
    isGitRemoteEmptyAsync 7 "out" "err" =
      Except.error { code := 7, stdout := "out", stderr := "err",
                     message := "Unexpected Error", resolve := false } :=
  (isGitRemoteEmptyAsync_exitCode_mapping 7 "out" "err").2.2.2.2.1
    (by decide) (by decide) (by decide)

/-- Claim C5: any attempt to set an intent while the in-progress flag is
true fails with `SequenceAlreadyRunning`, whichever intent is requested
(and the state is untouched); when the flag is false, setting an intent
sets the flag together with the intent. -/
theorem setIntent_guarded_oneShot (st : AdkState) (intent : INTENT) :
    (st.executingSequence = true →
       setIntent intent st = (st, some AdkError.sequenceRunning)) ∧
    (st.executingSequence = false →
       (setIntent intent st).1.executingSequence = true ∧
       (setIntent intent st).1.executionIntent = intent) := by
  cases hflag : st.executingSequence <;> cases intent <;> simp [setIntent, hflag]

/-- Closed instance of the C5 theorem: requesting `VALIDATE_DEMO` while a
sequence is already executing fails with `SequenceAlreadyRunning`. -/
theorem setIntent_guarded_oneShot_witness :
    setIntent INTENT.VALIDATE_DEMO
        { executionIntent := INTENT.DEPLOY_DEMO, executingSequence := true } =
      ({ executionIntent := INTENT.DEPLOY_DEMO, executingSequence := true },
       some AdkError.sequenceRunning) :=
  (setIntent_guarded_oneShot
      { executionIntent := INTENT.DEPLOY_DEMO, executingSequence := true }
      INTENT.VALIDATE_DEMO).1 rfl

/-- Claim C6: the blocking `isGitRemoteEmpty` returns true exactly when the
probe exits with code 0 — exactly when the async classifier resolves — and
returns false for exit codes 2, 128 and every other nonzero code alike, so
it cannot distinguish a reachable-but-empty remote (code 2) from an
unreachable one (code 128), while the async form maps those two codes to
different results: the two forms are not equivalent. -/
theorem isGitRemoteEmpty_coarser_than_async :
    (∀ code : Int, (isGitRemoteEmpty code = true ↔ code = 0)) ∧
    (∀ (code : Int) (stdout stderr : String),
       (isGitRemoteEmpty code = true ↔
         ∃ r, isGitRemoteEmptyAsync code stdout stderr = Except.ok r)) ∧
    isGitRemoteEmpty 2 = false ∧
    isGitRemoteEmpty 128 = false ∧
    isGitRemoteEmpty 7 = false ∧
    isGitRemoteEmpty 2 = isGitRemoteEmpty 128 ∧
    isGitRemoteEmptyAsync 2 "" "" ≠ isGitRemoteEmptyAsync 128 "" "" := by
  refine ⟨?_, ?_, by decide, by decide, by decide, by decide, ?_⟩
  · intro code
    by_cases h : code = 0 <;> simp [isGitRemoteEmpty, shellExecThrows, h]
  · intro code stdout stderr
    by_cases h0 : code = 0 <;> by_cases h2 : code = 2 <;> by_cases h128 : code = 128 <;>
      simp [isGitRemoteEmpty, shellExecThrows, isGitRemoteEmptyAsync,
            isGitRemoteEmptyAsyncCallback, h0, h2, h128]
  · intro hcontra
    have := congrArg (fun x => match x with
      | Except.ok r => r.message
      | Except.error r => r.message) hcontra
    simp [isGitRemoteEmptyAsync, isGitRemoteEmptyAsyncCallback] at this

/-- Claim C7: `gitClone` works against the resolved normalized target path
throughout; a failed directory change is followed by one recursive
creation and exactly one retried change — creation failure is fatal with
`InvalidTargetDir`, a second change failure is fatal with `NoTargetDir`,
with no further retries (the issued-operation traces are exact) — and once
positioned inside the directory a failing clone command surfaces as a
`DestinationNotEmpty` error naming the resolved target path. -/
theorem gitClone_directory_fallback (uri target : String)
    (resolvePath : String → String) (env : CloneEnv)
    (hne : jsTrim target ≠ "") :
    (env.cdFailsBefore = false →
       gitClone (JsVal.str uri) (JsVal.str target) resolvePath env =
         ([ShellOp.cd (resolvePath target), ShellOp.exec ("git clone " ++ uri)],
          if env.cloneFails
          then Except.error (GitError.destinationNotEmpty (resolvePath target))
          else Except.ok ())) ∧
    (env.cdFailsBefore = true → env.mkdirFails = true →
       gitClone (JsVal.str uri) (JsVal.str target) resolvePath env =
         ([ShellOp.cd (resolvePath target), ShellOp.mkdirP (resolvePath target)],
          Except.error GitError.invalidTargetDir)) ∧
    (env.cdFailsBefore = true → env.mkdirFails = false → env.cdFailsAfter = true →
       gitClone (JsVal.str uri) (JsVal.str target) resolvePath env =
         ([ShellOp.cd (resolvePath target), ShellOp.mkdirP (resolvePath target),
           ShellOp.cd (resolvePath target)],
          Except.error GitError.noTargetDir)) ∧
    (env.cdFailsBefore = true → env.mkdirFails = false → env.cdFailsAfter = false →
       gitClone (JsVal.str uri) (JsVal.str target) resolvePath env =
         ([ShellOp.cd (resolvePath target), ShellOp.mkdirP (resolvePath target),
           ShellOp.cd (resolvePath target), ShellOp.exec ("git clone " ++ uri)],
          if env.cloneFails
          then Except.error (GitError.destinationNotEmpty (resolvePath target))
          else Except.ok ())) := by
  cases h1 : env.cdFailsBefore <;> cases h2 : env.mkdirFails <;>
    cases h3 : env.cdFailsAfter <;> cases h4 : env.cloneFails <;>
    simp [gitClone, hne, h1, h2, h3, h4]

/-- Closed instance of the C7 theorem: with the target directory initially
missing, creation succeeding, the retried change succeeding and the clone
command failing, the call issues cd, mkdir, cd, clone and fails with
`DestinationNotEmpty` naming the resolved path. -/
theorem gitClone_directory_fallback_witness :
    gitClone (JsVal.str "https://example.com/org/my-repo.git")
        (JsVal.str "demos/target") (fun s => "/home/dev/" ++ s)
        { cdFailsBefore := true, mkdirFails := false, cdFailsAfter := false,
          cloneFails := true } =
      ([ShellOp.cd "/home/dev/demos/target", ShellOp.mkdirP "/home/dev/demos/target",
        ShellOp.cd "/home/dev/demos/target",
        ShellOp.exec "git clone https://example.com/org/my-repo.git"],
       Except.error (GitError.destinationNotEmpty "/home/dev/demos/target")) :=
  (gitClone_directory_fallback "https://example.com/org/my-repo.git" "demos/target"
      (fun s => "/home/dev/" ++ s)
      { cdFailsBefore := true, mkdirFails := false, cdFailsAfter := false,
        cloneFails := true } (by decide)).2.2.2 rfl rfl rfl

/-- Claim C9, counterexample: `gitClone` does not reject an empty
`gitRemoteUri` — with a valid target directory the clone shell command is
issued carrying the empty URI and the call succeeds; and the empty
`targetDirectory` is rejected with the generic `ERROR_INVALID_VALUE`
`Error`, not a `TypeError`. -/
theorem gitClone_accepts_empty_remoteUri :
    gitClone (JsVal.str "") (JsVal.str "/projects/demo") id
        { cdFailsBefore := false, mkdirFails := false, cdFailsAfter := false,
          cloneFails := false } =
      ([ShellOp.cd "/projects/demo", ShellOp.exec "git clone "], Except.ok ()) ∧
    gitClone (JsVal.str "https://example.com/org/my-repo.git") (JsVal.str "") id
        { cdFailsBefore := false, mkdirFails := false, cdFailsAfter := false,
          cloneFails := false } =
      ([], Except.error GitError.errorInvalidValue) := by
  exact ⟨rfl, rfl⟩

/-- Claim C9 as amended: `gitInit`, `gitAddAndCommit` and
`gitRemoteAddOrigin` reject every non-string or empty-string required
parameter with a `TypeError` before issuing any shell command; `gitClone`
rejects non-string parameters with a `TypeError` and a blank (all
whitespace) `targetDirectory` with a generic invalid-value `Error`, but an
empty `gitRemoteUri` is not rejected: shell commands are still issued for
it. -/
theorem gitHelpers_param_validation (t m u target : String)
    (resolvePath : String → String) (env : CloneEnv) :
    gitInit JsVal.notAString = ([], Except.error GitError.typeErrorInvalidType) ∧
    gitInit (JsVal.str "") = ([], Except.error GitError.typeErrorInvalidType) ∧
    gitAddAndCommit JsVal.notAString (JsVal.str m) =
      ([], Except.error GitError.typeErrorInvalidType) ∧
    gitAddAndCommit (JsVal.str "") (JsVal.str m) =
      ([], Except.error GitError.typeErrorInvalidType) ∧
    (t ≠ "" → gitAddAndCommit (JsVal.str t) JsVal.notAString =
      ([], Except.error GitError.typeErrorInvalidType)) ∧
    (t ≠ "" → gitAddAndCommit (JsVal.str t) (JsVal.str "") =
      ([], Except.error GitError.typeErrorInvalidType)) ∧
    gitRemoteAddOrigin JsVal.notAString (JsVal.str u) =
      ([], Except.error GitError.typeErrorInvalidType) ∧
    gitRemoteAddOrigin (JsVal.str "") (JsVal.str u) =
      ([], Except.error GitError.typeErrorInvalidType) ∧
    (t ≠ "" → gitRemoteAddOrigin (JsVal.str t) JsVal.notAString =
      ([], Except.error GitError.typeErrorInvalidType)) ∧
    (t ≠ "" → gitRemoteAddOrigin (JsVal.str t) (JsVal.str "") =
      ([], Except.error GitError.typeErrorInvalidType)) ∧
    gitClone JsVal.notAString (JsVal.str target) resolvePath env =
      ([], Except.error GitError.typeErrorUnexpectedType) ∧
    gitClone (JsVal.str u) JsVal.notAString resolvePath env =
      ([], Except.error GitError.typeErrorUnexpectedType) ∧
    (jsTrim target = "" → gitClone (JsVal.str u) (JsVal.str target) resolvePath env =
      ([], Except.error GitError.errorInvalidValue)) ∧
    (jsTrim target ≠ "" →
      (gitClone (JsVal.str "") (JsVal.str target) resolvePath env).1 ≠ []) := by
  refine ⟨rfl, rfl, rfl, rfl, ?_, ?_, rfl, rfl, ?_, ?_, rfl, rfl, ?_, ?_⟩
  · intro ht; simp [gitAddAndCommit, ht]
  · intro ht; simp [gitAddAndCommit, ht]
  · intro ht; simp [gitRemoteAddOrigin, ht]
  · intro ht; simp [gitRemoteAddOrigin, ht]
  · intro ht; simp [gitClone, ht]
  · intro ht
    cases h1 : env.cdFailsBefore <;> cases h2 : env.mkdirFails <;>
      cases h3 : env.cdFailsAfter <;> cases h4 : env.cloneFails <;>
      simp [gitClone, ht, h1, h2, h3, h4]

/-- Closed instance of the amended C9 theorem: an all-whitespace target
directory is rejected by `gitClone` with the invalid-value error before
any shell command. -/
theorem gitHelpers_param_validation_witness :
    gitClone (JsVal.str "https://example.com/org/my-repo.git") (JsVal.str "  ") id
        { cdFailsBefore := false, mkdirFails := false, cdFailsAfter := false,
          cloneFails := false } =
      ([], Except.error GitError.errorInvalidValue) :=
  (gitHelpers_param_validation "dir" "msg" "https://example.com/org/my-repo.git" "  "
      id
      { cdFailsBefore := false, mkdirFails := false, cdFailsAfter := false,
        cloneFails := false }).2.2.2.2.2.2.2.2.2.2.2.2.1 (by decide)

/-- Claim C8 (divergence witness): `getRepoNameFromUri` extracts the bare
name for a well-formed URI, but on `"https://example.com/.git"` — where the
trailing-segment pattern does not match at all — the source dereferences
the `null` returned by `exec` and raises a JavaScript `TypeError`, never
reaching the `ERROR_UNREADABLE_REPO_NAME` throw. -/
theorem getRepoNameFromUri_behavior :
    getRepoNameFromUri "https://example.com/org/my-repo.git" = Except.ok "my-repo" ∧
    getRepoNameFromUri "git@github.com:org/some_repo-2.git/" = Except.ok "some_repo-2" ∧
    getRepoNameFromUri "https://example.com/.git" = Except.error GitError.nullDereference ∧
    getRepoNameFromUri "https://example.com/.git" ≠
      Except.error GitError.unreadableRepoName := by
  refine ⟨rfl, rfl, rfl, ?_⟩
  rw [show getRepoNameFromUri "https://example.com/.git" =
        Except.error GitError.nullDereference from rfl]
  simp

/-- Helper: a conditional push to the end of an accumulator is the
accumulator followed by a conditional singleton. -/
theorem listIfAppend (b : Bool) (l : List String) (k : String) :
    (if b then l ++ [k] else l) = l ++ (if b then [k] else []) := by
  cases b <;> simp

/-- Helper: membership in a conditional singleton. -/
theorem memIfSingleton (b : Bool) (k x : String) :
    (x ∈ (if b then [k] else [])) ↔ (b = true ∧ x = k) := by
  cases b <;> simp

/-- Helper: a conditional singleton is a sublist of the singleton. -/
theorem subIfSingleton (b : Bool) (k : String) :
    List.Sublist (if b then [k] else []) [k] := by
  cases b <;> simp

/-- Helper: a conditional singleton is empty iff its condition is false. -/
theorem ifSingletonEqNil (b : Bool) (k : String) :
    ((if b then [k] else []) = []) ↔ (b = false) := by
  cases b <;> simp

/-- The accumulated key list of `validateAppxDemoConfig`, as the
concatenation of one conditional singleton per required field, in source
order. -/
theorem missingKeys_chunks (c : AppxDemoProjectConfig) :
    missingKeys c =
      (if jsFalsy c.demoAlias then ["demoAlias"] else []) ++
      ((if jsFalsy c.demoConfig then ["demoConfig"] else []) ++
       ((if jsFalsy c.demoTitle then ["demoTitle"] else []) ++
        ((if jsFalsy c.demoType then ["demoType"] else []) ++
         ((if jsFalsy c.demoVersion then ["demoVersion"] else []) ++
          ((if jsFalsy c.gitHubUrl then ["gitHubUrl"] else []) ++
           ((if jsFalsy c.gitRemoteUri then ["gitRemoteUri"] else []) ++
            ((if jsFalsy c.partnerAlias then ["partnerAlias"] else []) ++
             ((if jsFalsy c.partnerName then ["partnerName"] else []) ++
              (if jsFalsy c.schemaVersion then ["schemaVersion"] else []))))))))) := by
  simp only [missingKeys, listIfAppend]
  simp only [List.nil_append, List.append_assoc]

/-- The ten required keys, in source order. -/
def requiredConfigKeys : List String :=
  ["demoAlias", "demoConfig", "demoTitle", "demoType", "demoVersion",
   "gitHubUrl", "gitRemoteUri", "partnerAlias", "partnerName", "schemaVersion"]

/-- The accumulated key list is a sublist of the ten required keys. -/
theorem missingKeys_sublist (c : AppxDemoProjectConfig) :
    List.Sublist (missingKeys c) requiredConfigKeys := by
  rw [missingKeys_chunks]
  show List.Sublist _
    (["demoAlias"] ++ (["demoConfig"] ++ (["demoTitle"] ++ (["demoType"] ++
     (["demoVersion"] ++ (["gitHubUrl"] ++ (["gitRemoteUri"] ++ (["partnerAlias"] ++
      (["partnerName"] ++ ["schemaVersion"])))))))))
  exact (subIfSingleton _ _).append ((subIfSingleton _ _).append
    ((subIfSingleton _ _).append ((subIfSingleton _ _).append
    ((subIfSingleton _ _).append ((subIfSingleton _ _).append
    ((subIfSingleton _ _).append ((subIfSingleton _ _).append
    ((subIfSingleton _ _).append (subIfSingleton _ _)))))))))

/-- Claim C4: when one or more of the ten required project-configuration
fields is missing or empty, resolution fails with `InvalidConfig` whose
report lists exactly the set of missing/empty keys — all of them, with no
duplicates — and when all ten are present and non-empty the completeness
check passes. -/
theorem validateAppxDemoConfig_reports_all_missing_keys (c : AppxDemoProjectConfig) :
    (validateAppxDemoConfig c = ConfigValidationResult.valid ↔
       (jsFalsy c.demoAlias = false ∧ jsFalsy c.demoConfig = false ∧
        jsFalsy c.demoTitle = false ∧ jsFalsy c.demoType = false ∧
        jsFalsy c.demoVersion = false ∧ jsFalsy c.gitHubUrl = false ∧
        jsFalsy c.gitRemoteUri = false ∧ jsFalsy c.partnerAlias = false ∧
        jsFalsy c.partnerName = false ∧ jsFalsy c.schemaVersion = false)) ∧
    (resolveConfigCheck c = Except.ok () ↔
       validateAppxDemoConfig c = ConfigValidationResult.valid) ∧
    (validateAppxDemoConfig c ≠ ConfigValidationResult.valid →
       missingKeys c ≠ [] ∧
       validateAppxDemoConfig c = ConfigValidationResult.invalid (missingKeys c) ∧
       resolveConfigCheck c = Except.error (AdkError.invalidConfigKeys (missingKeys c))) ∧
    (missingKeys c).Nodup ∧
    (∀ k : String, k ∈ missingKeys c ↔
       ((jsFalsy c.demoAlias = true ∧ k = "demoAlias") ∨
        (jsFalsy c.demoConfig = true ∧ k = "demoConfig") ∨
        (jsFalsy c.demoTitle = true ∧ k = "demoTitle") ∨
        (jsFalsy c.demoType = true ∧ k = "demoType") ∨
        (jsFalsy c.demoVersion = true ∧ k = "demoVersion") ∨
        (jsFalsy c.gitHubUrl = true ∧ k = "gitHubUrl") ∨
        (jsFalsy c.gitRemoteUri = true ∧ k = "gitRemoteUri") ∨
        (jsFalsy c.partnerAlias = true ∧ k = "partnerAlias") ∨
        (jsFalsy c.partnerName = true ∧ k = "partnerName") ∨
        (jsFalsy c.schemaVersion = true ∧ k = "schemaVersion"))) := by
  have hnil : missingKeys c = [] ↔
      (jsFalsy c.demoAlias = false ∧ jsFalsy c.demoConfig = false ∧
       jsFalsy c.demoTitle = false ∧ jsFalsy c.demoType = false ∧
       jsFalsy c.demoVersion = false ∧ jsFalsy c.gitHubUrl = false ∧
       jsFalsy c.gitRemoteUri = false ∧ jsFalsy c.partnerAlias = false ∧
       jsFalsy c.partnerName = false ∧ jsFalsy c.schemaVersion = false) := by
    rw [missingKeys_chunks]
    simp only [List.append_eq_nil, ifSingletonEqNil]
  have hvalid : validateAppxDemoConfig c = ConfigValidationResult.valid ↔
      missingKeys c = [] := by
    unfold validateAppxDemoConfig
    rcases hk : missingKeys c with _ | ⟨a, rest⟩ <;> simp
  refine ⟨hvalid.trans hnil, ?_, ?_, ?_, ?_⟩
  · unfold resolveConfigCheck
    rcases hv : validateAppxDemoConfig c <;> simp
  · intro hinv
    have hne : missingKeys c ≠ [] := fun h => hinv (hvalid.mpr h)
    refine ⟨hne, ?_, ?_⟩
    · unfold validateAppxDemoConfig
      rcases hk : missingKeys c with _ | ⟨a, rest⟩
      · exact absurd hk hne
      · simp
    · unfold resolveConfigCheck validateAppxDemoConfig
      rcases hk : missingKeys c with _ | ⟨a, rest⟩
      · exact absurd hk hne
      · simp
  · exact List.Nodup.sublist (missingKeys_sublist c) (by decide)
  · intro k
    rw [missingKeys_chunks]
    simp only [List.mem_append, memIfSingleton]

/-- Closed instance of the C4 theorem: a configuration with `demoAlias`
absent and `demoConfig` empty fails resolution listing exactly those two
keys. -/
theorem validateAppxDemoConfig_reports_all_missing_keys_witness :
    resolveConfigCheck
        { demoAlias := none, demoConfig := some "", demoTitle := some "My Demo",
          demoType := some "ADK-SINGLE", demoVersion := some "0.0.1",
          gitHubUrl := some "https://github.com/my-org/my-repo",
          gitRemoteUri := some "https://github.com/my-org/my-repo.git",
          partnerAlias := some "AppyInc", partnerName := some "Appy Apps",
          schemaVersion := some "0.0.1" } =
      Except.error (AdkError.invalidConfigKeys ["demoAlias", "demoConfig"]) := by
  have h := (validateAppxDemoConfig_reports_all_missing_keys
      { demoAlias := none, demoConfig := some "", demoTitle := some "My Demo",
        demoType := some "ADK-SINGLE", demoVersion := some "0.0.1",
        gitHubUrl := some "https://github.com/my-org/my-repo",
        gitRemoteUri := some "https://github.com/my-org/my-repo.git",
        partnerAlias := some "AppyInc", partnerName := some "Appy Apps",
        schemaVersion := some "0.0.1" }).2.2.1 (by decide)
  exact h.2.2.trans (congrArg (fun l => Except.error (AdkError.invalidConfigKeys l))
    (by decide))

/-- Claim C3: `deployDemo` sets the intent to `DEPLOY_DEMO` only when no
intent has yet been set; an already-set intent is never overridden (the
state is untouched); active intent `VALIDATE_DEMO` selects the validation
org alias with `targetIsScratchOrg = true`, active intent `DEPLOY_DEMO`
selects the deployment org alias with `targetIsScratchOrg = false`, and
any other active intent fails with `ERROR_INVALID_INTENT`. -/
theorem deployDemo_intent_branching (st : AdkState) (cfg : LocalConfig)
    (seq : FalconCommandSequence) :
    (st.executionIntent = INTENT.NOT_SPECIFIED → st.executingSequence = false →
       (deployDemo st cfg seq).1.executionIntent = INTENT.DEPLOY_DEMO ∧
       ∀ out, (deployDemo st cfg seq).2 = Except.ok out →
         out.targetOrgAlias = cfg.demoDeploymentOrgAlias ∧
         out.targetIsScratchOrg = false) ∧
    (st.executionIntent ≠ INTENT.NOT_SPECIFIED → (deployDemo st cfg seq).1 = st) ∧
    (st.executionIntent = INTENT.VALIDATE_DEMO →
       (deployDemo st cfg seq).1.executionIntent = INTENT.VALIDATE_DEMO ∧
       ∀ out, (deployDemo st cfg seq).2 = Except.ok out →
         out.targetOrgAlias = cfg.demoValidationOrgAlias ∧
         out.targetIsScratchOrg = true) ∧
    (st.executionIntent = INTENT.DEPLOY_DEMO →
       ∀ out, (deployDemo st cfg seq).2 = Except.ok out →
         out.targetOrgAlias = cfg.demoDeploymentOrgAlias ∧
         out.targetIsScratchOrg = false) ∧
    ((st.executionIntent = INTENT.HEALTH_CHECK ∨
      st.executionIntent = INTENT.REPAIR_PROJECT) →
       (deployDemo st cfg seq).2 = Except.error AdkError.invalidIntent) := by
  cases hI : st.executionIntent <;> cases hF : st.executingSequence <;>
    rcases hg : seq.sequenceGroups with _ | ⟨g0, gs⟩ <;>
    simp_all [deployDemo, setIntent, selectTarget, validateDemoBuildConfig]

/-- Closed instance of the C3 theorem: on a fresh orchestrator,
`deployDemo` defaults the intent to `DEPLOY_DEMO`. -/
theorem deployDemo_intent_branching_witness :
    (deployDemo { executionIntent := INTENT.NOT_SPECIFIED, executingSequence := false }
        { devHubAlias := "hub", demoValidationOrgAlias := "VAL",
          demoDeploymentOrgAlias := "DEP" }
        { options := { rebuildValidationOrg := JsBoolOption.nonBoolean,
                       scratchDefJson := "demo-config/sd.json" },
          sequenceGroups := [{ groupId := "g", groupName := "G", description := "d",
                               sequenceSteps := [] }] }).1.executionIntent =
      INTENT.DEPLOY_DEMO :=
  ((deployDemo_intent_branching
      { executionIntent := INTENT.NOT_SPECIFIED, executingSequence := false }
      { devHubAlias := "hub", demoValidationOrgAlias := "VAL",
        demoDeploymentOrgAlias := "DEP" }
      { options := { rebuildValidationOrg := JsBoolOption.nonBoolean,
                     scratchDefJson := "demo-config/sd.json" },
        sequenceGroups := [{ groupId := "g", groupName := "G", description := "d",
                             sequenceSteps := [] }] }).1 rfl rfl).1

/-- Claim C1: on every hand-off to the executor, the coerced
`rebuildValidationOrg` boolean has been written back into the sequence's
options (absent/non-boolean coerces to true); the rebuild group is
prepended to the front of the group list exactly when the active intent is
`VALIDATE_DEMO` and the coerced option is true — never under
`DEPLOY_DEMO` — and that group carries exactly the two steps
delete-scratch-org then create-scratch-org, both parametrized with the
resolved target org alias and the sequence's `scratchDefJson`. -/
theorem deployDemo_rebuildGroup_insertion (st : AdkState) (cfg : LocalConfig)
    (seq : FalconCommandSequence) (out : DeployOutcome)
    (hok : (deployDemo st cfg seq).2 = Except.ok out) :
    coerceRebuild JsBoolOption.nonBoolean = true ∧
    out.finalSequence.options.rebuildValidationOrg =
      JsBoolOption.boolean (coerceRebuild seq.options.rebuildValidationOrg) ∧
    out.finalSequence.options.scratchDefJson = seq.options.scratchDefJson ∧
    ((deployDemo st cfg seq).1.executionIntent = INTENT.VALIDATE_DEMO ∧
        coerceRebuild seq.options.rebuildValidationOrg = true →
      out.finalSequence.sequenceGroups =
        rebuildScratchOrgSequenceGroup out.targetOrgAlias seq.options.scratchDefJson ::
          seq.sequenceGroups) ∧
    (¬((deployDemo st cfg seq).1.executionIntent = INTENT.VALIDATE_DEMO ∧
         coerceRebuild seq.options.rebuildValidationOrg = true) →
      out.finalSequence.sequenceGroups = seq.sequenceGroups) ∧
    ((deployDemo st cfg seq).1.executionIntent = INTENT.DEPLOY_DEMO →
      out.finalSequence.sequenceGroups = seq.sequenceGroups) ∧
    (rebuildScratchOrgSequenceGroup out.targetOrgAlias
        seq.options.scratchDefJson).sequenceSteps.map (fun s => s.action) =
      ["delete-scratch-org", "create-scratch-org"] ∧
    (rebuildScratchOrgSequenceGroup out.targetOrgAlias
        seq.options.scratchDefJson).sequenceSteps.map
          (fun s => s.options.scratchOrgAlias) =
      [out.targetOrgAlias, out.targetOrgAlias] ∧
    (rebuildScratchOrgSequenceGroup out.targetOrgAlias
        seq.options.scratchDefJson).sequenceSteps.map
          (fun s => s.options.scratchDefJson) =
      [seq.options.scratchDefJson, seq.options.scratchDefJson] := by
  cases hI : st.executionIntent <;> cases hF : st.executingSequence <;>
    rcases hg : seq.sequenceGroups with _ | ⟨g0, gs⟩ <;>
    rcases hr : seq.options.rebuildValidationOrg with b | _ <;>
    try cases b
  all_goals
    simp_all [deployDemo, setIntent, selectTarget, validateDemoBuildConfig,
      coerceRebuild, rebuildScratchOrgSequenceGroup]
  all_goals (subst hok; simp)

/-- Closed instance of the C1 theorem: under `VALIDATE_DEMO` with the
option absent, the rebuild group is prepended. -/
theorem deployDemo_rebuildGroup_insertion_witness :
    coerceRebuild JsBoolOption.nonBoolean = true ∧
    (deployDemo { executionIntent := INTENT.VALIDATE_DEMO, executingSequence := true }
        { devHubAlias := "hub", demoValidationOrgAlias := "VAL",
          demoDeploymentOrgAlias := "DEP" }
        { options := { rebuildValidationOrg := JsBoolOption.nonBoolean,
                       scratchDefJson := "demo-config/sd.json" },
          sequenceGroups := [{ groupId := "g", groupName := "G", description := "d",
                               sequenceSteps := [] }] }).2 =
      Except.ok
        { targetOrgAlias := "VAL", targetIsScratchOrg := true,
          finalSequence :=
            { options := { rebuildValidationOrg := JsBoolOption.boolean true,
                           scratchDefJson := "demo-config/sd.json" },
              sequenceGroups :=
                [rebuildScratchOrgSequenceGroup "VAL" "demo-config/sd.json",
                 { groupId := "g", groupName := "G", description := "d",
                   sequenceSteps := [] }] } } := by
  have h := deployDemo_rebuildGroup_insertion
      { executionIntent := INTENT.VALIDATE_DEMO, executingSequence := true }
      { devHubAlias := "hub", demoValidationOrgAlias := "VAL",
        demoDeploymentOrgAlias := "DEP" }
      { options := { rebuildValidationOrg := JsBoolOption.nonBoolean,
                     scratchDefJson := "demo-config/sd.json" },
        sequenceGroups := [{ groupId := "g", groupName := "G", description := "d",
                             sequenceSteps := [] }] }
      { targetOrgAlias := "VAL", targetIsScratchOrg := true,
        finalSequence :=
          { options := { rebuildValidationOrg := JsBoolOption.boolean true,
                         scratchDefJson := "demo-config/sd.json" },
            sequenceGroups :=
              [rebuildScratchOrgSequenceGroup "VAL" "demo-config/sd.json",
               { groupId := "g", groupName := "G", description := "d",
                 sequenceSteps := [] }] } } rfl
  exact ⟨h.1, rfl⟩

/-- Claim C10: the in-progress flag is monotone — no path through
`setIntent`, `validateDemo` or `deployDemo` ever clears it; `setIntent`
writes the flag and the intent before validating the intent value, so a
rejected intent leaves both set; after a `validateDemo` call on a fresh
orchestrator, a second `validateDemo` fails with `SequenceAlreadyRunning`
while a second `deployDemo` skips the guard (it cannot fail with
`SequenceAlreadyRunning`, the state is untouched) and re-executes under
the previously active `VALIDATE_DEMO` intent. -/
theorem executingSequence_monotone :
    (∀ (st : AdkState) (cfg : LocalConfig) (seq : FalconCommandSequence),
       st.executingSequence = true →
         (deployDemo st cfg seq).1.executingSequence = true ∧
         (validateDemo st cfg seq).1.executingSequence = true) ∧
    (∀ (st : AdkState) (intent : INTENT),
       st.executingSequence = true → (setIntent intent st).1.executingSequence = true) ∧
    (∀ (st : AdkState) (intent : INTENT),
       st.executingSequence = false →
         (setIntent intent st).1.executingSequence = true ∧
         (setIntent intent st).1.executionIntent = intent) ∧
    (∀ st : AdkState, st.executingSequence = false →
       (setIntent INTENT.HEALTH_CHECK st).2 = some AdkError.intentNotImplemented) ∧
    (∀ (st : AdkState) (cfg : LocalConfig) (seq : FalconCommandSequence),
       st.executingSequence = false →
         (validateDemo st cfg seq).1.executingSequence = true ∧
         (validateDemo st cfg seq).1.executionIntent = INTENT.VALIDATE_DEMO) ∧
    (∀ (st : AdkState) (cfg cfg2 : LocalConfig) (seq seq2 : FalconCommandSequence),
       st.executingSequence = false →
         (validateDemo (validateDemo st cfg seq).1 cfg2 seq2).2 =
           Except.error AdkError.sequenceRunning) ∧
    (∀ (st : AdkState) (cfg cfg2 : LocalConfig) (seq seq2 : FalconCommandSequence),
       st.executingSequence = false →
         (deployDemo (validateDemo st cfg seq).1 cfg2 seq2).1 =
           (validateDemo st cfg seq).1 ∧
         (deployDemo (validateDemo st cfg seq).1 cfg2 seq2).2 ≠
           Except.error AdkError.sequenceRunning ∧
         (∀ out, (deployDemo (validateDemo st cfg seq).1 cfg2 seq2).2 =
             Except.ok out →
           out.targetOrgAlias = cfg2.demoValidationOrgAlias ∧
           out.targetIsScratchOrg = true)) := by
  have hval : ∀ (st : AdkState) (cfg : LocalConfig) (seq : FalconCommandSequence),
      st.executingSequence = false →
        (validateDemo st cfg seq).1 =
          { executionIntent := INTENT.VALIDATE_DEMO, executingSequence := true } := by
    intro st cfg seq hF
    rcases hg : seq.sequenceGroups with _ | ⟨g0, gs⟩ <;>
      simp_all [validateDemo, deployDemo, setIntent, selectTarget,
        validateDemoBuildConfig]
  refine ⟨?_, ?_, ?_, ?_, ?_, ?_, ?_⟩
  · intro st cfg seq hF
    cases hI : st.executionIntent <;>
      rcases hg : seq.sequenceGroups with _ | ⟨g0, gs⟩ <;>
      simp_all [deployDemo, validateDemo, setIntent, selectTarget,
        validateDemoBuildConfig]
  · intro st intent hF
    simp [setIntent, hF]
  · intro st intent hF
    cases intent <;> simp [setIntent, hF]
  · intro st hF
    simp [setIntent, hF]
  · intro st cfg seq hF
    rw [hval st cfg seq hF]
    exact ⟨rfl, rfl⟩
  · intro st cfg cfg2 seq seq2 hF
    rw [hval st cfg seq hF]
    simp [validateDemo, setIntent]
  · intro st cfg cfg2 seq seq2 hF
    rw [hval st cfg seq hF]
    rcases hg : seq2.sequenceGroups with _ | ⟨g0, gs⟩ <;>
      rcases hr : seq2.options.rebuildValidationOrg with b | _ <;>
      simp_all [deployDemo, setIntent, selectTarget, validateDemoBuildConfig,
        coerceRebuild]

/-- Closed instance of the C10 theorem: after a `validateDemo` on a fresh
orchestrator, a second `validateDemo` fails with `SequenceAlreadyRunning`. -/
theorem executingSequence_monotone_witness :
    (validateDemo
        (validateDemo { executionIntent := INTENT.NOT_SPECIFIED, executingSequence := false }
          { devHubAlias := "hub", demoValidationOrgAlias := "VAL",
            demoDeploymentOrgAlias := "DEP" }
          { options := { rebuildValidationOrg := JsBoolOption.boolean false,
                         scratchDefJson := "demo-config/sd.json" },
            sequenceGroups := [{ groupId := "g", groupName := "G", description := "d",
                                 sequenceSteps := [] }] }).1
        { devHubAlias := "hub", demoValidationOrgAlias := "VAL",
          demoDeploymentOrgAlias := "DEP" }
        { options := { rebuildValidationOrg := JsBoolOption.boolean false,
                       scratchDefJson := "demo-config/sd.json" },
          sequenceGroups := [{ groupId := "g", groupName := "G", description := "d",
                               sequenceSteps := [] }] }).2 =
      Except.error AdkError.sequenceRunning :=
  executingSequence_monotone.2.2.2.2.2.1
    { executionIntent := INTENT.NOT_SPECIFIED, executingSequence := false }
    { devHubAlias := "hub", demoValidationOrgAlias := "VAL",
      demoDeploymentOrgAlias := "DEP" }
    { devHubAlias := "hub", demoValidationOrgAlias := "VAL",
      demoDeploymentOrgAlias := "DEP" }
    { options := { rebuildValidationOrg := JsBoolOption.boolean false,
                   scratchDefJson := "demo-config/sd.json" },
      sequenceGroups := [{ groupId := "g", groupName := "G", description := "d",
                           sequenceSteps := [] }] }
    { options := { rebuildValidationOrg := JsBoolOption.boolean false,
                   scratchDefJson := "demo-config/sd.json" },
      sequenceGroups := [{ groupId := "g", groupName := "G", description := "d",
                           sequenceSteps := [] }] }
    rfl

end SfdxFalcon
